import Mathlib

/-!
Verification development for the ListaZakupow shopping-list application.

The backend is a small PHP/JSON API over a `shopping_items` table
(`items.php`, the alternate items endpoint with the `action=replace`
handler, `login.php`, the register endpoint, `logout.php`, `config.php`)
and a browser client (`lista.js`).  This file gives a shallow embedding of
the request handlers and the two pure client-side helpers (password
strength checker, session-cache validity check) and proves the spec
claims about them.

Modelling conventions:
- the database is a list of rows plus an auto-increment counter and a
  clock (`NOW()` returns `now`);
- the authenticated user id is passed explicitly (the `isLoggedIn` guard
  at the top of each endpoint is outside the embedded fragment);
- JSON request fields are `Option`-valued: `none` models an absent key;
- PHP `trim`/`empty`/`intval` coercions are embedded explicitly
  (`phpTrim`, `phpEmpty`; quantities arrive as JSON integers).
-/

namespace ListaZakupow

/-- One row of the `shopping_items` table, as selected by the handlers:
`id, text, quantity, unit, description, completed, added_at, completed_at,
updated_at` plus the owning `user_id`.  Timestamps are abstract ticks;
`completed_at`/`updated_at` are nullable columns. -/
structure Item where
  id : Nat
  user_id : Nat
  text : String
  quantity : Int
  unit : String
  description : String
  completed : Bool
  added_at : Nat
  completed_at : Option Nat
  updated_at : Option Nat
deriving Repr, DecidableEq

/-- Server state seen by the item handlers: the `shopping_items` rows, the
auto-increment counter for fresh ids, and the current clock value used for
`NOW()`. -/
structure DB where
  items : List Item
  nextId : Nat
  now : Nat
deriving Repr, DecidableEq

/-- A JSON response body: an `error` field, a `message` field, a created
item (POST returns the re-selected row), or an item list (GET). -/
inductive Body where
  | err (m : String)
  | msg (m : String)
  | itemBody (it : Item)
  | listBody (l : List Item)
deriving Repr, DecidableEq

/-- An HTTP response as produced by `sendJsonResponse`: status code plus
JSON body. -/
structure ApiResp where
  status : Nat
  body : Body
deriving Repr, DecidableEq

/-- The `error` string of a response, when the body is an error object. -/
def respErrString (r : ApiResp) : String :=
  match r.body with
  | .err m => m
  | _ => ""

/-- The characters stripped by PHP `trim` with its default mask
(space, tab, newline, carriage return, NUL, vertical tab). -/
def phpTrimChars : List Char := [' ', '\t', '\n', '\r', '\x00', '\x0B']

/-- PHP `trim($s)`: strip the default whitespace mask from both ends. -/
def phpTrim (s : String) : String :=
  ⟨((s.data.dropWhile (fun c => phpTrimChars.contains c)).reverse.dropWhile
      (fun c => phpTrimChars.contains c)).reverse⟩

/-- Trimming the empty string gives the empty string. -/
theorem phpTrim_empty : phpTrim "" = "" := rfl

/-- PHP `empty($s)` on a string: true exactly for `""` and `"0"`. -/
def phpEmpty (s : String) : Bool :=
  s == "" || s == "0"

/-- A JSON item object as sent by the client to POST / PUT /
`action=replace`; every key may be absent. -/
structure ItemReq where
  text : Option String
  quantity : Option Int
  unit : Option String
  description : Option String
  completed : Option Bool
deriving Repr, DecidableEq

/-- The valid-unit whitelist of the replace handler:
`['szt', 'kg', 'g', 'l', 'ml', 'opak', 'inna']`. -/
def validUnits : List String := ["szt", "kg", "g", "l", "ml", "opak", "inna"]

/-- POST add-item handler of `items.php`: defaults
(`quantity 1`, `unit 'szt'`, `description ''`, `completed false`), rejects
empty text then quantity < 1 with 400, otherwise inserts a fresh row with
`added_at = NOW()` and returns the created row with 201. -/
def addItem (db : DB) (uid : Nat) (req : ItemReq) : DB × ApiResp :=
  let text := phpTrim (req.text.getD "")
  let quantity := req.quantity.getD 1
  let unit := req.unit.getD "szt"
  let description := phpTrim (req.description.getD "")
  let completed := req.completed.getD false
  if phpEmpty text then
    (db, ⟨400, .err "Item text is required"⟩)
  else if quantity < 1 then
    (db, ⟨400, .err "Quantity must be at least 1"⟩)
  else
    let newItem : Item :=
      ⟨db.nextId, uid, text, quantity, unit, description, completed, db.now, none, none⟩
    (⟨db.items ++ [newItem], db.nextId + 1, db.now⟩, ⟨201, .itemBody newItem⟩)

/-- The `ORDER BY completed, added_at DESC` comparison of the GET handler:
incomplete (`completed = 0`) rows sort before completed ones, and inside a
completion group larger `added_at` sorts first. -/
def itemLe (a b : Item) : Bool :=
  if a.completed = b.completed then b.added_at ≤ a.added_at else !a.completed

/-- GET handler of `items.php`: `SELECT ... WHERE user_id = :user_id ORDER
BY completed, added_at DESC`. -/
def getItems (db : DB) (uid : Nat) : List Item :=
  (db.items.filter (fun it => it.user_id == uid)).mergeSort itemLe

/-- The ownership pre-check of the PUT handler:
`SELECT id FROM shopping_items WHERE id = :id AND user_id = :user_id`. -/
def ownsItem (db : DB) (uid iid : Nat) : Bool :=
  db.items.any (fun it => it.id == iid && it.user_id == uid)

/-- Whether the PUT body carries at least one updatable field (otherwise
the handler answers `No fields to update`). -/
def hasAnyField (req : ItemReq) : Bool :=
  req.text.isSome || req.quantity.isSome || req.unit.isSome ||
    req.description.isSome || req.completed.isSome

/-- The dynamically built `UPDATE` of the PUT handler applied to one row:
each present field is written (text and description trimmed), a present
`completed` also writes `completed_at = NOW()` or `NULL`, and
`updated_at = NOW()` is always appended. -/
def applyUpdate (now : Nat) (req : ItemReq) (it : Item) : Item :=
  let it := match req.text with
    | some t => { it with text := phpTrim t }
    | none => it
  let it := match req.quantity with
    | some q => { it with quantity := q }
    | none => it
  let it := match req.unit with
    | some u => { it with unit := u }
    | none => it
  let it := match req.description with
    | some d => { it with description := phpTrim d }
    | none => it
  let it := match req.completed with
    | some c => { it with completed := c, completed_at := if c then some now else none }
    | none => it
  { it with updated_at := some now }

/-- PUT single-item update handler of `items.php`: 404 if the id is not
owned by the caller, 400 if `text` is present but empty after trimming,
400 if `quantity` is present but < 1, 400 if no updatable field is
present; otherwise runs the built `UPDATE ... WHERE id = :id` (ownership
was already established) and answers 200. -/
def updateItem (db : DB) (uid iid : Nat) (req : ItemReq) : DB × ApiResp :=
  if !ownsItem db uid iid then
    (db, ⟨404, .err "Item not found"⟩)
  else if req.text.isSome && phpEmpty (phpTrim (req.text.getD "")) then
    (db, ⟨400, .err "Item text cannot be empty"⟩)
  else if req.quantity.isSome && req.quantity.getD 1 < 1 then
    (db, ⟨400, .err "Quantity must be at least 1"⟩)
  else if !hasAnyField req then
    (db, ⟨400, .err "No fields to update"⟩)
  else
    (⟨db.items.map (fun it => if it.id == iid then applyUpdate db.now req it else it),
        db.nextId, db.now⟩,
     ⟨200, .msg "Item updated successfully"⟩)

/-- DELETE `action=clear` handler: `DELETE FROM shopping_items WHERE
user_id = :user_id`, answering with the deleted row count. -/
def clearList (db : DB) (uid : Nat) : DB × ApiResp :=
  let remaining := db.items.filter (fun it => !(it.user_id == uid))
  let deletedCount := db.items.length - remaining.length
  (⟨remaining, db.nextId, db.now⟩,
   ⟨200, .msg (toString deletedCount ++ " items deleted successfully")⟩)

/-- The per-item validation of the replace handler, in source order: empty
trimmed text (key defaulted to absent-as-empty), then
`intval($item['quantity'] ?? 1) < 1`, then `$item['unit'] ?? ''` outside
the whitelist.  Returns the 400 error message of the first failing check. -/
def itemValidationError (item : ItemReq) : Option String :=
  if phpEmpty (phpTrim (item.text.getD "")) then
    some "Item text is required for all items"
  else if item.quantity.getD 1 < 1 then
    some "Quantity must be at least 1 for all items"
  else if !(validUnits.contains (item.unit.getD "")) then
    some "Invalid unit for one or more items"
  else
    none

/-- The validation loop of the replace handler: the error of the first
invalid item, if any. -/
def firstValidationError (items : List ItemReq) : Option String :=
  items.findSome? itemValidationError

/-- One row inserted by the replace transaction.  Note the insert reads
`intval($item['quantity'])` with no default, so an absent quantity is
stored as 0 (`intval(null)`), while validation had defaulted it to 1. -/
def replaceInsertItem (uid nid now : Nat) (item : ItemReq) : Item :=
  ⟨nid, uid, phpTrim (item.text.getD ""), item.quantity.getD 0,
    item.unit.getD "szt", phpTrim (item.description.getD ""),
    item.completed.getD false, now, none, none⟩

/-- The insert loop of the replace transaction: every supplied item gets a
fresh auto-increment id, in order. -/
def insertFresh (uid now : Nat) : Nat → List ItemReq → List Item
  | _, [] => []
  | nid, item :: rest => replaceInsertItem uid nid now item :: insertFresh uid now (nid + 1) rest

/-- PUT `action=replace` handler of the alternate items endpoint:
`$data['items'] ?? []`, validate every item before touching the store
(first failure answers 400 and nothing is written), then in one
transaction delete all of the caller's rows and insert every supplied
item fresh, answering `List replaced successfully`. -/
def replaceList (db : DB) (uid : Nat) (itemsField : Option (List ItemReq)) : DB × ApiResp :=
  let items := itemsField.getD []
  match firstValidationError items with
  | some e => (db, ⟨400, .err e⟩)
  | none =>
    (⟨db.items.filter (fun it => !(it.user_id == uid)) ++ insertFresh uid db.now db.nextId items,
        db.nextId + items.length, db.now⟩,
     ⟨200, .msg "List replaced successfully"⟩)

/-- Catch block of `login.php`: `'Database error: ' . $e->getMessage()`
with status 500. -/
def loginDbCatch (m : String) : ApiResp :=
  ⟨500, .err ("Database error: " ++ m)⟩

/-- PDOException catch block of the register endpoint: logs the detail and
answers a fixed `Database error occurred` with status 500. -/
def registerDbCatch (_m : String) : ApiResp :=
  ⟨500, .err "Database error occurred"⟩

/-- Top-level PDOException catch block of the item endpoints: logs the
detail and answers a fixed `Database error occurred` with status 500. -/
def itemsDbCatch (_m : String) : ApiResp :=
  ⟨500, .err "Database error occurred"⟩

/-- Inner catch block of the replace transaction: rolls back and answers
`'Failed to replace list: ' . $e->getMessage()` with status 500. -/
def replaceDbCatch (m : String) : ApiResp :=
  ⟨500, .err ("Failed to replace list: " ++ m)⟩

/-- Catch block of `getDB()` in `config.php`: a connection-failure
PDOException is not turned into a JSON 500 at all; the script `die()`s,
printing `'Database connection failed: ' . $e->getMessage()` as the raw
body at the default status 200. -/
def getDbConnectCatch (m : String) : Nat × String :=
  (200, "Database connection failed: " ++ m)

/-- String `m` occurs as a contiguous substring of `body`. -/
def containsSub (body m : String) : Prop :=
  ∃ s t, body = s ++ m ++ t

/-- The character class of the JS regex `/[a-z]/`. -/
def reLower (c : Char) : Bool := 'a' ≤ c && c ≤ 'z'

/-- The character class of the JS regex `/[A-Z]/`. -/
def reUpper (c : Char) : Bool := 'A' ≤ c && c ≤ 'Z'

/-- The character class of the JS regex `/[0-9]/`. -/
def reDigit (c : Char) : Bool := '0' ≤ c && c ≤ '9'

/-- The character class of the JS regex `/[!,@,#,$,%,^,&,*,?,_,~]/`; note
the separating commas are themselves members of the class. -/
def specialChars : List Char :=
  ['!', ',', '@', '#', '$', '%', '^', '&', '*', '?', '_', '~']

/-- The minimum-length complaint pushed by `checkStrength`. -/
def minLengthMsg : String := "Hasło powinno mieć co najmniej 8 znaków"

/-- The missing-cases complaint pushed by `checkStrength`. -/
def casesMsg : String := "Dodaj wielkie i małe litery"

/-- The missing-digit complaint pushed by `checkStrength`. -/
def digitMsg : String := "Dodaj cyfry"

/-- The missing-special complaint pushed by `checkStrength`. -/
def specialMsg : String := "Dodaj znaki specjalne (!@#$%^&*?_~)"

/-- Result of `PasswordStrength.checkStrength`: the internal `strength`
counter (`score`), the qualitative level, the ordered feedback entries,
and the joined feedback string the function returns. -/
structure StrengthResult where
  score : Nat
  strength : String
  feedbackList : List String
  feedback : String
deriving Repr, DecidableEq

/-- `PasswordStrength.checkStrength` of `lista.js`: one point each for
length ≥ 8, both letter cases, a digit, and a special character; level
`strong` at 4 points, `medium` at 3, `weak` at 2, else `very-weak`; a
complaint is pushed for each missing requirement, joined with `'. '`, or
`Mocne hasło!` when none is missing. -/
def checkStrength (password : String) : StrengthResult :=
  let hasLowercase := password.data.any reLower
  let hasUppercase := password.data.any reUpper
  let hasNumbers := password.data.any reDigit
  let hasSpecial := password.data.any (fun c => specialChars.contains c)
  let lenOk : Bool := password.length ≥ 8
  let score :=
    (if lenOk then 1 else 0) + (if hasLowercase && hasUppercase then 1 else 0) +
      (if hasNumbers then 1 else 0) + (if hasSpecial then 1 else 0)
  let fb :=
    (if lenOk then [] else [minLengthMsg]) ++
      (if hasLowercase && hasUppercase then [] else [casesMsg]) ++
      (if hasNumbers then [] else [digitMsg]) ++
      (if hasSpecial then [] else [specialMsg])
  let level :=
    if score ≥ 4 then "strong"
    else if score ≥ 3 then "medium"
    else if score ≥ 2 then "weak"
    else "very-weak"
  ⟨score, level, fb, if fb.isEmpty then "Mocne hasło!" else String.intercalate ". " fb⟩

/-- A client session-cache entry as written by `SessionManager.saveSession`:
the user data, `Date.now()` at issue time, and the remember flag. -/
structure SessionData where
  user : String
  timestamp : Nat
  rememberMe : Bool
deriving Repr, DecidableEq

/-- Seven days in milliseconds, the `oneWeek` constant of
`SessionManager.isSessionValid`. -/
def oneWeekMs : Nat := 7 * 24 * 60 * 60 * 1000

/-- `SessionManager.saveSession`: the stored entry records the user, the
current time and the remember flag. -/
def saveSession (user : String) (rememberMe : Bool) (now : Nat) : SessionData :=
  ⟨user, now, rememberMe⟩

/-- `SessionManager.isSessionValid`: false with no stored entry; with the
remember flag, true exactly when `Date.now() - timestamp` is below one
week; without the flag, true (the entry lives in `sessionStorage` and
disappears with the browsing context). -/
def isSessionValid (session : Option SessionData) (now : Nat) : Bool :=
  match session with
  | none => false
  | some s =>
    if s.rememberMe then (now : Int) - (s.timestamp : Int) < (oneWeekMs : Int) else true

/-- A sample row owned by user 1, used to instantiate theorems. -/
def itemMilk : Item := ⟨1, 1, "Milk", 2, "l", "", false, 10, none, none⟩

/-- A sample completed row owned by user 2, used to instantiate theorems. -/
def itemEggs : Item := ⟨2, 2, "Eggs", 1, "szt", "", true, 11, none, none⟩

/-- A sample database with one row per user, used to instantiate theorems. -/
def dbEx : DB := ⟨[itemMilk, itemEggs], 3, 100⟩

/-- The PUT body of a completion toggle: only the `completed` key is sent. -/
def onlyCompleted (b : Bool) : ItemReq := ⟨none, none, none, none, some b⟩

/-- The ORDER BY comparison, spelled out: `a` sorts no later than `b` iff
`a` is incomplete while `b` is complete, or both are in the same
completion group and `a` was added no earlier. -/
theorem itemLe_iff (a b : Item) :
    itemLe a b = true ↔
      ((a.completed = false ∧ b.completed = true) ∨
        (a.completed = b.completed ∧ b.added_at ≤ a.added_at)) := by
  cases ha : a.completed <;> cases hb : b.completed <;> simp [itemLe, ha, hb]

/-- Transitivity of the ORDER BY comparison. -/
theorem itemLe_trans : ∀ a b c : Item,
    itemLe a b = true → itemLe b c = true → itemLe a c = true := by
  intro a b c h1 h2
  cases ha : a.completed <;> cases hb : b.completed <;> cases hc : c.completed <;>
    simp [itemLe, ha, hb, hc] at h1 h2 ⊢ <;> omega

/-- Totality of the ORDER BY comparison. -/
theorem itemLe_total : ∀ a b : Item, (itemLe a b || itemLe b a) = true := by
  intro a b
  cases ha : a.completed <;> cases hb : b.completed <;> simp [itemLe, ha, hb] <;> omega

/-- The built UPDATE never touches the row id or the owner column. -/
theorem applyUpdate_preserves (now : Nat) (req : ItemReq) (it : Item) :
    (applyUpdate now req it).id = it.id ∧ (applyUpdate now req it).user_id = it.user_id := by
  rcases req with ⟨t, q, u, d, c⟩
  cases t <;> cases q <;> cases u <;> cases d <;> cases c <;> exact ⟨rfl, rfl⟩

/-- The built UPDATE always writes `updated_at = NOW()`. -/
theorem applyUpdate_updated_at (now : Nat) (req : ItemReq) (it : Item) :
    (applyUpdate now req it).updated_at = some now := rfl

/-- When the ownership check and all field validations pass, the PUT
handler runs the built UPDATE on every row with the target id and answers
200. -/
theorem updateItem_success_items (db : DB) (uid iid : Nat) (req : ItemReq)
    (h : ownsItem db uid iid = true)
    (h1 : (req.text.isSome && phpEmpty (phpTrim (req.text.getD ""))) = false)
    (h2 : (req.quantity.isSome && decide (req.quantity.getD 1 < 1)) = false)
    (h3 : hasAnyField req = true) :
    updateItem db uid iid req =
      (⟨db.items.map (fun it => if it.id == iid then applyUpdate db.now req it else it),
          db.nextId, db.now⟩,
       ⟨200, Body.msg "Item updated successfully"⟩) := by
  simp [updateItem, h, h1, h2, h3]

/-- Running the built UPDATE changes no row id and no owner, so the
ownership check gives the same answer afterwards. -/
theorem ownsItem_map_update (db : DB) (uid iid : Nat) (req : ItemReq) :
    ownsItem ⟨db.items.map (fun it => if it.id == iid then applyUpdate db.now req it else it),
        db.nextId, db.now⟩ uid iid = ownsItem db uid iid := by
  unfold ownsItem
  rw [List.any_map]
  congr 1
  funext it
  by_cases hid : it.id == iid
  · simp [Function.comp, hid, (applyUpdate_preserves db.now req it).1,
      (applyUpdate_preserves db.now req it).2]
  · simp [Function.comp, hid]

/-- C6 (counterexample): `checkStrength "aaaaaaaa"` scores exactly 1, but
the returned level is `very-weak`, not the `weak` band the claim names
(with the claimed thresholds, score 1 is below the weak threshold 2). -/
theorem c6_strength_aaaaaaaa_not_weak :
    (checkStrength "aaaaaaaa").score = 1 ∧ (checkStrength "aaaaaaaa").strength ≠ "weak" := by
  decide

/-- C6 (amended): `checkStrength` scores 0-4 points and maps the score
through the thresholds < 2 very-weak, < 3 weak, < 4 medium, else strong;
a password shorter than 8 characters gets the minimum-length complaint in
its feedback; `"aaaaaaaa"` scores exactly 1 and lands in the `very-weak`
band, `"Aa1!aaaa"` scores 4 (`strong`), and the empty string scores 0 with
the minimum-length complaint included. -/
theorem c6_password_strength (p : String) :
    (checkStrength p).score ≤ 4 ∧
    (checkStrength p).strength =
      (if (checkStrength p).score ≥ 4 then "strong"
       else if (checkStrength p).score ≥ 3 then "medium"
       else if (checkStrength p).score ≥ 2 then "weak"
       else "very-weak") ∧
    (p.length < 8 → minLengthMsg ∈ (checkStrength p).feedbackList) ∧
    (checkStrength "aaaaaaaa").score = 1 ∧
    (checkStrength "aaaaaaaa").strength = "very-weak" ∧
    (checkStrength "Aa1!aaaa").score = 4 ∧
    (checkStrength "Aa1!aaaa").strength = "strong" ∧
    (checkStrength "").score = 0 ∧
    minLengthMsg ∈ (checkStrength "").feedbackList := by
  refine ⟨?_, rfl, ?_, by decide, by decide, by decide, by decide, by decide, by decide⟩
  · cases h1 : (decide (p.length ≥ 8)) <;>
      cases h2 : (p.data.any reLower && p.data.any reUpper) <;>
      cases h3 : p.data.any reDigit <;>
      cases h4 : p.data.any (fun c => specialChars.contains c) <;>
      simp [checkStrength, h1, h2, h3, h4] <;> split_ifs <;> simp
  · intro h
    have h8 : ¬ 8 ≤ p.length := Nat.not_le.mpr h
    simp [checkStrength, h8]

/-- C6 (witness): the short password `"abc"` indeed gets the
minimum-length complaint. -/
theorem c6_password_strength_short_input :
    ("abc" : String).length < 8 ∧ minLengthMsg ∈ (checkStrength "abc").feedbackList :=
  ⟨by decide, (c6_password_strength "abc").2.2.1 (by decide)⟩

/-- C8: the session-cache validity check answers false with no stored
entry; for an entry with the remember flag it answers true exactly when
fewer than 7 days (in ms) have elapsed since the issue timestamp; for an
entry without the flag it always answers true; and the same holds for
entries produced by `saveSession`. -/
theorem c8_session_validity (s : SessionData) (now : Nat) :
    isSessionValid none now = false ∧
    (s.rememberMe = true →
      (isSessionValid (some s) now = true ↔
        (now : Int) - (s.timestamp : Int) < (oneWeekMs : Int))) ∧
    (s.rememberMe = false → isSessionValid (some s) now = true) ∧
    (∀ u t, isSessionValid (some (saveSession u true t)) now = true ↔
      (now : Int) - (t : Int) < (oneWeekMs : Int)) ∧
    (∀ u t, isSessionValid (some (saveSession u false t)) now = true) := by
  refine ⟨rfl, ?_, ?_, ?_, ?_⟩
  · intro h
    simp [isSessionValid, h]
  · intro h
    simp [isSessionValid, h]
  · intro u t
    simp [isSessionValid, saveSession]
  · intro u t
    simp [isSessionValid, saveSession]

/-- C8 (witness): an entry remembered at time 0 is still valid at time
1000 because fewer than 7 days have elapsed. -/
theorem c8_session_validity_concrete :
    (⟨"alice", 0, true⟩ : SessionData).rememberMe = true ∧
    (isSessionValid (some ⟨"alice", 0, true⟩) 1000 = true ↔
      (1000 : Int) - ((0 : Nat) : Int) < (oneWeekMs : Int)) :=
  ⟨rfl, (c8_session_validity ⟨"alice", 0, true⟩ 1000).2.1 rfl⟩

/-- C2 (counterexample): the login catch block and the replace-action
catch block answer 500 with the PDO exception message inside the body,
and the `getDB()` connection-failure catch dies with the exception
message in its raw body at the default status 200, not 500 — so internal
error detail does reach the client, and one database-failure path is not
even a 500. -/
theorem c2_login_catch_leaks :
    (loginDbCatch "SQLSTATE[HY000] [1045] Access denied").status = 500 ∧
    containsSub (respErrString (loginDbCatch "SQLSTATE[HY000] [1045] Access denied"))
      "SQLSTATE[HY000] [1045] Access denied" ∧
    containsSub (respErrString (replaceDbCatch "SQLSTATE[40001] Deadlock"))
      "SQLSTATE[40001] Deadlock" ∧
    (getDbConnectCatch "SQLSTATE[HY000] [2002] Connection refused").1 ≠ 500 ∧
    containsSub (getDbConnectCatch "SQLSTATE[HY000] [2002] Connection refused").2
      "SQLSTATE[HY000] [2002] Connection refused" :=
  ⟨rfl, ⟨"Database error: ", "", by decide⟩, ⟨"Failed to replace list: ", "", by decide⟩,
    by decide, ⟨"Database connection failed: ", "", by decide⟩⟩

/-- C2 (amended): the register endpoint and the item endpoints answer
database failures with the fixed generic 500 body
`Database error occurred`; but the login catch and the replace-action
catch answer 500 with the exception message appended to a fixed prefix,
and the `getDB()` connection-failure catch in `config.php` dies with
`Database connection failed: ` plus the exception message at the default
status 200 — three database-failure paths carry internal detail to the
client, and the connection-failure path is not surfaced as a 500. -/
theorem c2_db_error_surfacing (m : String) :
    registerDbCatch m = ⟨500, Body.err "Database error occurred"⟩ ∧
    itemsDbCatch m = ⟨500, Body.err "Database error occurred"⟩ ∧
    loginDbCatch m = ⟨500, Body.err ("Database error: " ++ m)⟩ ∧
    replaceDbCatch m = ⟨500, Body.err ("Failed to replace list: " ++ m)⟩ ∧
    containsSub (respErrString (loginDbCatch m)) m ∧
    containsSub (respErrString (replaceDbCatch m)) m ∧
    getDbConnectCatch m = (200, "Database connection failed: " ++ m) ∧
    (getDbConnectCatch m).1 ≠ 500 ∧
    containsSub (getDbConnectCatch m).2 m := by
  refine ⟨rfl, rfl, rfl, rfl, ⟨"Database error: ", "", ?_⟩,
    ⟨"Failed to replace list: ", "", ?_⟩, rfl, ?_,
    ⟨"Database connection failed: ", "", ?_⟩⟩ <;>
    simp [respErrString, loginDbCatch, replaceDbCatch, getDbConnectCatch]

/-- C9: a replace request with a missing or empty items collection passes
validation, answers the success message, and leaves exactly the same
stored state as the clear-list operation: every item of the caller is
deleted. -/
theorem c9_replace_empty_is_clear (db : DB) (uid : Nat) :
    (replaceList db uid none).1 = (clearList db uid).1 ∧
    (replaceList db uid (some [])).1 = (clearList db uid).1 ∧
    (replaceList db uid none).1.items = db.items.filter (fun it => !(it.user_id == uid)) ∧
    (replaceList db uid none).2 = ⟨200, Body.msg "List replaced successfully"⟩ ∧
    (replaceList db uid (some [])).2 = ⟨200, Body.msg "List replaced successfully"⟩ := by
  refine ⟨?_, ?_, ?_, rfl, rfl⟩ <;>
    simp [replaceList, clearList, firstValidationError, insertFresh]

/-- C10: an add request that carries only a non-empty text is created with
quantity 1, unit `szt`, empty description and `completed = false`, and is
answered with 201. -/
theorem c10_add_item_defaults (db : DB) (uid : Nat) (t : String)
    (h : phpEmpty (phpTrim t) = false) :
    (addItem db uid ⟨some t, none, none, none, none⟩).2.status = 201 ∧
    (addItem db uid ⟨some t, none, none, none, none⟩).2.body =
      Body.itemBody ⟨db.nextId, uid, phpTrim t, 1, "szt", "", false, db.now, none, none⟩ ∧
    (addItem db uid ⟨some t, none, none, none, none⟩).1.items =
      db.items ++ [⟨db.nextId, uid, phpTrim t, 1, "szt", "", false, db.now, none, none⟩] := by
  refine ⟨?_, ?_, ?_⟩ <;> simp [addItem, h, phpTrim_empty]

/-- C10 (witness): adding `" Milk "` with every optional field omitted
creates the defaulted row. -/
theorem c10_add_item_defaults_concrete :
    phpEmpty (phpTrim " Milk ") = false ∧
    ((addItem dbEx 1 ⟨some " Milk ", none, none, none, none⟩).2.status = 201 ∧
      (addItem dbEx 1 ⟨some " Milk ", none, none, none, none⟩).2.body =
        Body.itemBody ⟨dbEx.nextId, 1, phpTrim " Milk ", 1, "szt", "", false, dbEx.now, none, none⟩ ∧
      (addItem dbEx 1 ⟨some " Milk ", none, none, none, none⟩).1.items =
        dbEx.items ++ [⟨dbEx.nextId, 1, phpTrim " Milk ", 1, "szt", "", false, dbEx.now, none, none⟩]) :=
  ⟨by decide, c10_add_item_defaults dbEx 1 " Milk " (by decide)⟩

/-- C3 (counterexample): an add request with non-empty text and quantity 2
but unit `banana` passes the handler (only text and quantity are checked),
is answered 201, and the created record carries the unit `banana`, which
is not one of the seven enumerated values. -/
theorem c3_add_item_unit_unchecked :
    (addItem dbEx 1 ⟨some "Milk", some 2, some "banana", none, none⟩).2.status = 201 ∧
    (addItem dbEx 1 ⟨some "Milk", some 2, some "banana", none, none⟩).2.body =
      Body.itemBody ⟨3, 1, "Milk", 2, "banana", "", false, 100, none, none⟩ ∧
    "banana" ∉ validUnits := by
  decide

/-- C3 (amended): every add request passing the handler checks (non-empty
trimmed text, quantity ≥ 1) is answered 201 and the created record has a
positive integer quantity and carries the submitted unit string verbatim
(default `szt`); the unit is in the enumerated set exactly when the
submitted one is, since add does not validate units.  Every add request
with empty text is rejected with 400 and no effect, regardless of the
other fields. -/
theorem c3_add_item_contract (db : DB) (uid : Nat) (req : ItemReq) :
    (phpEmpty (phpTrim (req.text.getD "")) = false → 1 ≤ req.quantity.getD 1 →
      (addItem db uid req).2.status = 201 ∧
      ∃ it, (addItem db uid req).2.body = Body.itemBody it ∧
        1 ≤ it.quantity ∧ it.unit = req.unit.getD "szt" ∧
        (req.unit.getD "szt" ∈ validUnits ↔ it.unit ∈ validUnits)) ∧
    (phpEmpty (phpTrim (req.text.getD "")) = true →
      (addItem db uid req).1 = db ∧
      (addItem db uid req).2 = ⟨400, Body.err "Item text is required"⟩) := by
  constructor
  · intro h1 h2
    have h2n : ¬ req.quantity.getD 1 < 1 := Int.not_lt.mpr h2
    refine ⟨?_, ⟨db.nextId, uid, phpTrim (req.text.getD ""), req.quantity.getD 1,
      req.unit.getD "szt", phpTrim (req.description.getD ""), req.completed.getD false,
      db.now, none, none⟩, ?_, h2, rfl, Iff.rfl⟩ <;>
      simp [addItem, h1, h2n]
  · intro h1
    exact ⟨by simp [addItem, h1], by simp [addItem, h1]⟩

/-- C3 (witness): a concrete valid add gets 201 with positive quantity,
and a concrete empty-text add is rejected with 400. -/
theorem c3_add_item_contract_concrete :
    phpEmpty (phpTrim ((some "Milk" : Option String).getD "")) = false ∧
    (1 : Int) ≤ (some (2 : Int) : Option Int).getD 1 ∧
    ((addItem dbEx 1 ⟨some "Milk", some 2, some "kg", none, none⟩).2.status = 201 ∧
      ∃ it, (addItem dbEx 1 ⟨some "Milk", some 2, some "kg", none, none⟩).2.body = Body.itemBody it ∧
        1 ≤ it.quantity ∧ it.unit = (some "kg" : Option String).getD "szt" ∧
        ((some "kg" : Option String).getD "szt" ∈ validUnits ↔ it.unit ∈ validUnits)) ∧
    phpEmpty (phpTrim ((some "  " : Option String).getD "")) = true ∧
    ((addItem dbEx 1 ⟨some "  ", some 2, some "kg", none, none⟩).1 = dbEx ∧
      (addItem dbEx 1 ⟨some "  ", some 2, some "kg", none, none⟩).2 =
        ⟨400, Body.err "Item text is required"⟩) :=
  ⟨by decide, by decide,
    (c3_add_item_contract dbEx 1 ⟨some "Milk", some 2, some "kg", none, none⟩).1
      (by decide) (by decide),
    by decide,
    (c3_add_item_contract dbEx 1 ⟨some "  ", some 2, some "kg", none, none⟩).2 (by decide)⟩

/-- C7: the list returned by the GET handler is a permutation of the
caller's rows (an item appears in it exactly when the caller owns it), and
it is ordered with incomplete items first and, inside each completion
group, by most-recently-added first. -/
theorem c7_list_items_order (db : DB) (uid : Nat) :
    (getItems db uid).Perm (db.items.filter (fun it => it.user_id == uid)) ∧
    (∀ it, it ∈ getItems db uid ↔ it ∈ db.items ∧ it.user_id = uid) ∧
    List.Pairwise
      (fun a b => (a.completed = false ∧ b.completed = true) ∨
        (a.completed = b.completed ∧ b.added_at ≤ a.added_at))
      (getItems db uid) := by
  refine ⟨List.mergeSort_perm _ itemLe, ?_, ?_⟩
  · intro it
    unfold getItems
    rw [(List.mergeSort_perm _ itemLe).mem_iff, List.mem_filter]
    simp
  · exact (List.sorted_mergeSort itemLe_trans itemLe_total
      (db.items.filter (fun it => it.user_id == uid))).imp
      (fun h => (itemLe_iff _ _).mp h)

/-- C5: the ownership check holds exactly when the caller owns a row with
the target id; update answers 404 and leaves the store untouched when it
fails; and whenever text is present but empty or quantity is present but
below 1, update answers 400 and leaves the store untouched. -/
theorem c5_update_item_failures (db : DB) (uid iid : Nat) (req : ItemReq) :
    (ownsItem db uid iid = true ↔ ∃ it ∈ db.items, it.id = iid ∧ it.user_id = uid) ∧
    (ownsItem db uid iid = false →
      updateItem db uid iid req = (db, ⟨404, Body.err "Item not found"⟩)) ∧
    (ownsItem db uid iid = true →
      ((∃ t, req.text = some t ∧ phpEmpty (phpTrim t) = true) ∨
        (∃ q, req.quantity = some q ∧ q < 1)) →
      (updateItem db uid iid req).2.status = 400 ∧ (updateItem db uid iid req).1 = db) := by
  refine ⟨?_, ?_, ?_⟩
  · simp [ownsItem, List.any_eq_true]
  · intro h
    simp [updateItem, h]
  · intro how hbad
    by_cases h2 : (req.text.isSome && phpEmpty (phpTrim (req.text.getD ""))) = true
    · constructor <;> simp [updateItem, how, h2]
    · rcases hbad with ⟨t, ht, he⟩ | ⟨q, hq, hlt⟩
      · exact absurd (by simp [ht, he]) h2
      · have h3 : (req.quantity.isSome && decide (req.quantity.getD 1 < 1)) = true := by
          simp [hq, hlt]
        constructor <;> simp [updateItem, how, h2, h3]

/-- C5 (witness): user 1 does not own item 2, so updating it answers 404
with no effect; user 1 owns item 1, and an update with empty text answers
400 with no effect. -/
theorem c5_update_item_failures_concrete :
    ownsItem dbEx 1 2 = false ∧
    updateItem dbEx 1 2 ⟨some "x", none, none, none, none⟩ =
      (dbEx, ⟨404, Body.err "Item not found"⟩) ∧
    ownsItem dbEx 1 1 = true ∧
    (updateItem dbEx 1 1 ⟨some "", none, none, none, none⟩).2.status = 400 ∧
    (updateItem dbEx 1 1 ⟨some "", none, none, none, none⟩).1 = dbEx :=
  ⟨by decide,
    (c5_update_item_failures dbEx 1 2 ⟨some "x", none, none, none, none⟩).2.1 (by decide),
    by decide,
    ((c5_update_item_failures dbEx 1 1 ⟨some "", none, none, none, none⟩).2.2 (by decide)
      (Or.inl ⟨"", by decide, by decide⟩)).1,
    ((c5_update_item_failures dbEx 1 1 ⟨some "", none, none, none, none⟩).2.2 (by decide)
      (Or.inl ⟨"", by decide, by decide⟩)).2⟩

/-- C4: for an owner's completion toggle the handler answers 200, every
stored row with the target id gets `completed = b` with `completed_at`
set to now for `b = true` and cleared for `b = false`; every successful
update (any validated non-empty field set) refreshes `updated_at`; and
toggling twice restores `completed = false` with `completed_at` cleared. -/
theorem c4_update_completed_timestamps (db : DB) (uid iid : Nat) (b : Bool)
    (h : ownsItem db uid iid = true) :
    (updateItem db uid iid (onlyCompleted b)).2.status = 200 ∧
    (∀ it ∈ (updateItem db uid iid (onlyCompleted b)).1.items, it.id = iid →
      it.completed = b ∧ it.completed_at = (if b then some db.now else none) ∧
      it.updated_at = some db.now) ∧
    (∀ req : ItemReq,
      (req.text.isSome && phpEmpty (phpTrim (req.text.getD ""))) = false →
      (req.quantity.isSome && decide (req.quantity.getD 1 < 1)) = false →
      hasAnyField req = true →
      (updateItem db uid iid req).2.status = 200 ∧
      ∀ it ∈ (updateItem db uid iid req).1.items, it.id = iid →
        it.updated_at = some db.now) ∧
    (∀ it ∈ (updateItem (updateItem db uid iid (onlyCompleted true)).1 uid iid
        (onlyCompleted false)).1.items, it.id = iid →
      it.completed = false ∧ it.completed_at = none) := by
  have happ : ∀ (now : Nat) (b' : Bool) (a : Item),
      applyUpdate now (onlyCompleted b') a =
        { a with
            completed := b'
            completed_at := (if b' then some now else none)
            updated_at := some now } := fun _ _ _ => rfl
  have hmem : ∀ (db' : DB) (req : ItemReq) (it : Item),
      it ∈ db'.items.map (fun x => if x.id == iid then applyUpdate db'.now req x else x) →
      it.id = iid → ∃ a ∈ db'.items, it = applyUpdate db'.now req a := by
    intro db' req it hit hid
    rcases List.mem_map.mp hit with ⟨a, ha, hfa⟩
    by_cases hcase : (a.id == iid) = true
    · rw [if_pos hcase] at hfa
      exact ⟨a, ha, hfa.symm⟩
    · rw [if_neg hcase] at hfa
      subst hfa
      exact absurd (by simp [hid]) hcase
  have hsucc : ∀ (db' : DB), ownsItem db' uid iid = true → ∀ (b' : Bool),
      updateItem db' uid iid (onlyCompleted b') =
        (⟨db'.items.map
            (fun it => if it.id == iid then applyUpdate db'.now (onlyCompleted b') it else it),
            db'.nextId, db'.now⟩,
         ⟨200, Body.msg "Item updated successfully"⟩) := by
    intro db' hk b'
    exact updateItem_success_items db' uid iid (onlyCompleted b') hk rfl rfl rfl
  refine ⟨by rw [hsucc db h b], ?_, ?_, ?_⟩
  · intro it hit hid
    rw [hsucc db h b] at hit
    obtain ⟨a, _, rfl⟩ := hmem db (onlyCompleted b) it hit hid
    rw [happ]
    exact ⟨rfl, rfl, rfl⟩
  · intro req h1 h2 h3
    rw [updateItem_success_items db uid iid req h h1 h2 h3]
    refine ⟨rfl, ?_⟩
    intro it hit hid
    obtain ⟨a, _, rfl⟩ := hmem db req it hit hid
    exact applyUpdate_updated_at db.now req a
  · intro it hit hid
    have h1 : ownsItem (updateItem db uid iid (onlyCompleted true)).1 uid iid = true := by
      rw [hsucc db h true]
      exact (ownsItem_map_update db uid iid (onlyCompleted true)).trans h
    rw [hsucc _ h1 false] at hit
    obtain ⟨a, _, rfl⟩ := hmem _ (onlyCompleted false) it hit hid
    rw [happ]
    exact ⟨rfl, rfl⟩

/-- C4 (witness): toggling item 1 of the sample store once sets
`completed = true` with a completion timestamp, and toggling twice clears
both again. -/
theorem c4_toggle_concrete :
    ownsItem dbEx 1 1 = true ∧
    (updateItem dbEx 1 1 (onlyCompleted true)).2.status = 200 ∧
    (∀ it ∈ (updateItem dbEx 1 1 (onlyCompleted true)).1.items, it.id = 1 →
      it.completed = true ∧ it.completed_at = (if true then some dbEx.now else none) ∧
      it.updated_at = some dbEx.now) ∧
    (∀ it ∈ (updateItem (updateItem dbEx 1 1 (onlyCompleted true)).1 1 1
        (onlyCompleted false)).1.items, it.id = 1 →
      it.completed = false ∧ it.completed_at = none) :=
  ⟨by decide, (c4_update_completed_timestamps dbEx 1 1 true (by decide)).1,
    (c4_update_completed_timestamps dbEx 1 1 true (by decide)).2.1,
    (c4_update_completed_timestamps dbEx 1 1 true (by decide)).2.2.2⟩

/-- C1: an item passes replace validation exactly when its trimmed text is
non-empty, its quantity (default 1) is at least 1, and its unit is in the
enumerated set; when any submitted item fails validation the whole
operation answers 400 and the stored state is unchanged; when all items
pass, the caller's rows are replaced in one step by fresh inserts of every
supplied item and the operation answers the success message. -/
theorem c1_replace_list_atomic (db : DB) (uid : Nat) (itemsField : Option (List ItemReq)) :
    (∀ item : ItemReq, itemValidationError item = none ↔
      (phpEmpty (phpTrim (item.text.getD "")) = false ∧ 1 ≤ item.quantity.getD 1 ∧
        item.unit.getD "" ∈ validUnits)) ∧
    (¬ (∀ item ∈ itemsField.getD [], itemValidationError item = none) →
      (replaceList db uid itemsField).1 = db ∧
      (replaceList db uid itemsField).2.status = 400) ∧
    ((∀ item ∈ itemsField.getD [], itemValidationError item = none) →
      (replaceList db uid itemsField).1.items =
        db.items.filter (fun it => !(it.user_id == uid)) ++
          insertFresh uid db.now db.nextId (itemsField.getD []) ∧
      (replaceList db uid itemsField).2 = ⟨200, Body.msg "List replaced successfully"⟩) := by
  refine ⟨?_, ?_, ?_⟩
  · intro item
    unfold itemValidationError
    split_ifs with e1 e2 e3 <;> simp_all
  · intro hbad
    have hne : firstValidationError (itemsField.getD []) ≠ none := by
      rw [firstValidationError, Ne, List.findSome?_eq_none_iff]
      exact hbad
    obtain ⟨e, he⟩ := Option.ne_none_iff_exists'.mp hne
    constructor <;> simp [replaceList, he]
  · intro hall
    have h0 : firstValidationError (itemsField.getD []) = none := by
      rw [firstValidationError, List.findSome?_eq_none_iff]
      exact hall
    constructor <;> simp [replaceList, h0]

/-- C1 (witness): a batch with a zero-quantity item is rejected with 400
and the sample store is unchanged, while an all-valid batch is accepted
with the success message. -/
theorem c1_replace_list_concrete :
    (¬ (∀ item ∈ [(⟨some "Bread", some 0, some "szt", none, none⟩ : ItemReq)],
      itemValidationError item = none)) ∧
    (replaceList dbEx 1 (some [⟨some "Bread", some 0, some "szt", none, none⟩])).1 = dbEx ∧
    (replaceList dbEx 1 (some [⟨some "Bread", some 0, some "szt", none, none⟩])).2.status = 400 ∧
    (∀ item ∈ [(⟨some "Bread", some 2, some "szt", none, none⟩ : ItemReq)],
      itemValidationError item = none) ∧
    (replaceList dbEx 1 (some [⟨some "Bread", some 2, some "szt", none, none⟩])).2 =
      ⟨200, Body.msg "List replaced successfully"⟩ :=
  ⟨by decide,
    ((c1_replace_list_atomic dbEx 1 (some [⟨some "Bread", some 0, some "szt", none, none⟩])).2.1
      (by decide)).1,
    ((c1_replace_list_atomic dbEx 1 (some [⟨some "Bread", some 0, some "szt", none, none⟩])).2.1
      (by decide)).2,
    by decide,
    ((c1_replace_list_atomic dbEx 1 (some [⟨some "Bread", some 2, some "szt", none, none⟩])).2.2
      (by decide)).2⟩

end ListaZakupow
